import Mathlib

/-!
# Verification of the `looper.rs` event-multiplexing example

Shallow embedding of `src/ndk-examples/examples/looper.rs`: the 4-byte
little-endian wire format on the custom event pipes, the pipe-reading
callback registered with the thread looper, and the lifecycle scheduling
loop (`exit` / `redraw_pending` / `render_state`) driven by `poll_events`.
-/

set_option autoImplicit false

namespace Looper

/-! ## Wire format (`i.to_le_bytes()` / `u32::from_le_bytes`) -/

/-- `v.to_le_bytes()` for a `u32` value `v`: the four little-endian bytes,
each represented as a `Nat` below 256. -/
def u32ToLeBytes (v : Nat) : List Nat :=
  [v % 256, v / 256 % 256, v / 65536 % 256, v / 16777216 % 256]

/-- `u32::from_le_bytes` applied to the first four bytes of a list. -/
def u32FromLeBytes (bs : List Nat) : Nat :=
  match bs with
  | b0 :: b1 :: b2 :: b3 :: _ => b0 + 256 * b1 + 65536 * b2 + 16777216 * b3
  | _ => 0

/-- A producer `send`: `rustix::io::write(&pipe.1, &i.to_le_bytes())` appends
the four little-endian bytes of `v` to the pipe's buffered bytes. -/
def send (buf : List Nat) (v : Nat) : List Nat :=
  buf ++ u32ToLeBytes v

/-! ## Channel receive and the looper callback -/

/-- Errors of the channel protocol. `ShortRead` models the
`assert_eq!(rustix::io::read(fd, &mut recv).unwrap(), size_of_val(&recv))`
panic: fewer than 4 bytes were delivered by a read on a ready descriptor. -/
inductive ChannelError
  | ShortRead
  deriving DecidableEq, Repr

/-- The receive step of the callback in `looper.rs` lines 32-34: read into a
4-byte buffer, fatally fail (assert) unless exactly 4 bytes arrive, then
decode little-endian. A pipe read returns `min(available, 4)` bytes, so with
at least 4 bytes buffered it consumes exactly the first 4; with fewer it is
the fatal short read. Returns the decoded value and the remaining bytes. -/
def receiveEvent (buf : List Nat) : Except ChannelError (Nat × List Nat) :=
  if 4 ≤ buf.length then
    Except.ok (u32FromLeBytes (buf.take 4), buf.drop 4)
  else
    Except.error ChannelError.ShortRead

/-- The decision of the callback body (`recv < 5` in `looper.rs` line 37):
`true` keeps the callback attached, `false` detaches it. -/
def callbackContinue (recv : Nat) : Bool :=
  recv < 5

/-- State of the callback-bound pipe: bytes buffered in the pipe, whether the
callback is still registered with the looper, and how many times the
callback has been invoked. -/
structure PipeState where
  buf : List Nat
  attached : Bool
  invocations : Nat
  deriving DecidableEq, Repr

/-- The pipe right after `add_fd_with_callback`: empty, attached, never
invoked. -/
def initPipe : PipeState :=
  { buf := [], attached := true, invocations := 0 }

/-- One invocation of the callback of `looper.rs` lines 31-38: receive a
4-byte event (fatal on short read) and stay attached exactly when the
decoded value satisfies `recv < 5`. -/
def invokeCallback (st : PipeState) : Except ChannelError PipeState :=
  match receiveEvent st.buf with
  | Except.error e => Except.error e
  | Except.ok (v, rest) =>
      Except.ok { buf := rest, attached := callbackContinue v,
                  invocations := st.invocations + 1 }

/-- Modelled from the spec: the looper's fd-callback dispatch (§4.2 step 4),
whose implementation lives in the external `ndk` crate. When the read end is
ready (bytes are buffered) and the callback is registered, the callback is
invoked; when it returns `false` ("stop") the descriptor is unregistered, so
a detached callback is never dispatched again even if bytes remain
buffered. -/
def pollCallbackPipe (st : PipeState) : Except ChannelError PipeState :=
  if st.attached && !st.buf.isEmpty then invokeCallback st else Except.ok st

/-- A producer send on the callback pipe followed by one looper wait cycle in
which the pipe's readiness is dispatched. -/
def sendThenPoll (st : PipeState) (v : Nat) : Except ChannelError PipeState :=
  pollCallbackPipe { st with buf := send st.buf v }

/-- The scenario driver: send each value in order, dispatching the looper
between sends (the producer thread of `looper.rs` sends one value per
second, so each send is seen by its own wait cycle). -/
def runSends (st : PipeState) (vs : List Nat) : Except ChannelError PipeState :=
  vs.foldlM sendThenPoll st

/-! ## Lifecycle events and the scheduling state -/

/-- The `MainEvent` payloads matched by `looper.rs` lines 76-111. `Other`
stands for any variant reaching the wildcard `_ => {}` arm (the enum is
non-exhaustive; unknown future variants are ignored). -/
inductive MainEvent
  | SaveState
  | Pause
  | Resume
  | InitWindow
  | TerminateWindow
  | WindowResized
  | RedrawNeeded
  | InputAvailable
  | ConfigChanged
  | LowMemory
  | Destroy
  | Other (tag : Nat)
  deriving DecidableEq, Repr

/-- The `PollEvent` variants matched by `looper.rs` lines 65-114. `Other`
stands for any variant reaching the wildcard `_ => {}` arm. -/
inductive PollEvent
  | Wake
  | Timeout
  | Main (m : MainEvent)
  | Other (tag : Nat)
  deriving DecidableEq, Repr

/-- The mutable scheduling state of `android_main` (`looper.rs` lines 57-59):
`exit`, `redraw_pending`, and `render_state : Option<()>`. -/
structure SchedState where
  exit : Bool
  redraw_pending : Bool
  render_state : Option Unit
  deriving DecidableEq, Repr

/-- The state before the first wait (`looper.rs` lines 57-59): `exit = false`,
`redraw_pending = true`, `render_state = Default::default() = None`. -/
def initState : SchedState :=
  { exit := false, redraw_pending := true, render_state := none }

/-- The `match main_event` of `looper.rs` lines 76-111. `SaveState`,
`Resume`, and `ConfigChanged` only call collaborators (`saver.store`,
`loader.load`, `app.config`) and log; they do not touch the scheduling
state. -/
def handleMain (s : SchedState) (m : MainEvent) : SchedState :=
  match m with
  | MainEvent.SaveState => s
  | MainEvent.Pause => s
  | MainEvent.Resume => s
  | MainEvent.InitWindow =>
      { s with render_state := some (), redraw_pending := true }
  | MainEvent.TerminateWindow => { s with render_state := none }
  | MainEvent.WindowResized => { s with redraw_pending := true }
  | MainEvent.RedrawNeeded => { s with redraw_pending := true }
  | MainEvent.InputAvailable => { s with redraw_pending := true }
  | MainEvent.ConfigChanged => s
  | MainEvent.LowMemory => s
  | MainEvent.Destroy => { s with exit := true }
  | MainEvent.Other _ => s

/-- The `match event` of `looper.rs` lines 65-114, i.e. the part of the
`poll_events` closure that runs before the post-event redraw check. -/
def handleEvent (s : SchedState) (e : PollEvent) : SchedState :=
  match e with
  | PollEvent.Wake => s
  | PollEvent.Timeout => { s with redraw_pending := true }
  | PollEvent.Main m => handleMain s m
  | PollEvent.Other _ => s

/-- Observable actions of one closure invocation: draining the buffered
input events (the `while app.input_events_iter() ...` loop) and performing
one render pass (the `info!("Render...")` point). -/
inductive LoopAction
  | drainInputs
  | render
  deriving DecidableEq, Repr, BEq

/-- The post-event redraw check of `looper.rs` lines 116-128: if
`redraw_pending` and a render state is present, clear `redraw_pending`,
drain all buffered input events, then perform one render pass. -/
def redrawCheck (s : SchedState) : SchedState × List LoopAction :=
  if s.redraw_pending then
    match s.render_state with
    | some _ =>
        ({ s with redraw_pending := false },
         [LoopAction.drainInputs, LoopAction.render])
    | none => (s, [])
  else (s, [])

/-- One full invocation of the `poll_events` closure on one delivered event:
the event match followed by the post-event redraw check. -/
def processEvent (s : SchedState) (e : PollEvent) : SchedState × List LoopAction :=
  redrawCheck (handleEvent s e)

/-- Result of running the `while !exit` loop over a finite prefix of
delivered events: final state, number of `poll_events` wait calls issued,
and the actions performed, in order. -/
structure RunResult where
  state : SchedState
  waits : Nat
  actions : List LoopAction
  deriving DecidableEq, Repr

/-- The `while !exit { app.poll_events(...) }` loop of `looper.rs` lines
61-131, run over a finite list of events. Each wait call delivers exactly one
`PollEvent` to the closure (spec §3: exactly one variant is produced per
wait cycle); the loop condition is re-checked before every wait. -/
def runLoop : SchedState → List PollEvent → RunResult
  | s, [] => { state := s, waits := 0, actions := [] }
  | s, e :: rest =>
      if s.exit then { state := s, waits := 0, actions := [] }
      else
        let p := processEvent s e
        let r := runLoop p.1 rest
        { state := r.state, waits := r.waits + 1, actions := p.2 ++ r.actions }

/-- Number of render passes in a list of recorded actions. -/
def renderCount (acts : List LoopAction) : Nat :=
  acts.count LoopAction.render

end Looper

namespace Looper

/-! ## Helper lemmas -/

/-- The post-event redraw check never changes `exit`. -/
theorem redrawCheck_exit (s : SchedState) : (redrawCheck s).1.exit = s.exit := by
  obtain ⟨ex, rp, rs⟩ := s
  cases rp <;> cases rs <;> rfl

/-- The post-event redraw check never changes `render_state`. -/
theorem redrawCheck_render_state (s : SchedState) :
    (redrawCheck s).1.render_state = s.render_state := by
  obtain ⟨ex, rp, rs⟩ := s
  cases rp <;> cases rs <;> rfl

/-- No arm of the event match ever clears `exit`. -/
theorem handleEvent_exit (s : SchedState) (e : PollEvent) (h : s.exit = true) :
    (handleEvent s e).exit = true := by
  cases e with
  | Wake => exact h
  | Timeout => exact h
  | Other t => exact h
  | Main m => cases m <;> first | exact h | rfl

/-- No arm of the event match ever clears `redraw_pending`; only the redraw
check does. -/
theorem handleEvent_pending (s : SchedState) (e : PollEvent)
    (h : s.redraw_pending = true) : (handleEvent s e).redraw_pending = true := by
  cases e with
  | Wake => exact h
  | Timeout => rfl
  | Other t => exact h
  | Main m => cases m <;> first | exact h | rfl

/-- When a redraw is pending and a render state is present, the redraw check
clears the flag and performs one input drain followed by one render pass. -/
theorem redrawCheck_fires (s : SchedState) (h1 : s.redraw_pending = true)
    (h2 : s.render_state.isSome = true) :
    redrawCheck s = ({ s with redraw_pending := false },
      [LoopAction.drainInputs, LoopAction.render]) := by
  obtain ⟨ex, rp, rs⟩ := s
  cases rp with
  | false => cases h1
  | true =>
    cases rs with
    | none => cases h2
    | some u => rfl

/-! ## Claim theorems -/

/-- C1: on the callback-bound channel, sending 0,1,2,3,4,5 invokes the
callback exactly six times (once per value, the invocation counter tracks
each prefix), the callback is detached after the sixth invocation (the one
that decodes 5, since `5 < 5` is false), and a seventh send (value 6)
produces no further invocation: its four bytes stay buffered and the
counter stays at 6. -/
theorem pipe_callback_scenario :
    runSends initPipe [] = Except.ok ⟨[], true, 0⟩ ∧
    runSends initPipe [0] = Except.ok ⟨[], true, 1⟩ ∧
    runSends initPipe [0, 1] = Except.ok ⟨[], true, 2⟩ ∧
    runSends initPipe [0, 1, 2] = Except.ok ⟨[], true, 3⟩ ∧
    runSends initPipe [0, 1, 2, 3] = Except.ok ⟨[], true, 4⟩ ∧
    runSends initPipe [0, 1, 2, 3, 4] = Except.ok ⟨[], true, 5⟩ ∧
    runSends initPipe [0, 1, 2, 3, 4, 5] = Except.ok ⟨[], false, 6⟩ ∧
    runSends initPipe [0, 1, 2, 3, 4, 5, 6] = Except.ok ⟨u32ToLeBytes 6, false, 6⟩ :=
  ⟨rfl, rfl, rfl, rfl, rfl, rfl, rfl, rfl⟩

/-- C2 counterexample: delivering `Main(InitWindow)` then `Timeout` from the
initial state records two render passes, not one, so "exactly one render
pass is recorded in total" is false. The redraw check runs after every
delivered event, and the `Timeout` arm sets `redraw_pending` again. -/
theorem init_timeout_single_render_cex :
    renderCount (runLoop initState
      [PollEvent.Main MainEvent.InitWindow, PollEvent.Timeout]).actions ≠ 1 := by
  decide

/-- C2 amended: delivering `Main(InitWindow)` then `Timeout` from the
initial state makes `render_state` present; after each of the two events,
`redraw_pending` becomes true and then false after a render pass; exactly
two render passes are recorded in total, one per event. -/
theorem init_timeout_two_renders :
    processEvent initState (PollEvent.Main MainEvent.InitWindow) =
      (⟨false, false, some ()⟩, [LoopAction.drainInputs, LoopAction.render]) ∧
    (handleEvent initState (PollEvent.Main MainEvent.InitWindow)).redraw_pending = true ∧
    (handleEvent initState (PollEvent.Main MainEvent.InitWindow)).render_state = some () ∧
    (handleEvent ⟨false, false, some ()⟩ PollEvent.Timeout).redraw_pending = true ∧
    processEvent ⟨false, false, some ()⟩ PollEvent.Timeout =
      (⟨false, false, some ()⟩, [LoopAction.drainInputs, LoopAction.render]) ∧
    runLoop initState [PollEvent.Main MainEvent.InitWindow, PollEvent.Timeout] =
      { state := ⟨false, false, some ()⟩, waits := 2,
        actions := [LoopAction.drainInputs, LoopAction.render,
                    LoopAction.drainInputs, LoopAction.render] } ∧
    renderCount (runLoop initState
      [PollEvent.Main MainEvent.InitWindow, PollEvent.Timeout]).actions = 2 :=
  ⟨rfl, rfl, rfl, rfl, rfl, rfl, rfl⟩

/-- C3: receiving `Main(Destroy)` sets `exit`; once `exit` is true no full
closure invocation (event match plus redraw check) ever clears it; and with
`exit` true the loop issues zero further wait calls, whatever events would
have been delivered. -/
theorem destroy_is_terminal :
    (∀ s : SchedState, (handleEvent s (PollEvent.Main MainEvent.Destroy)).exit = true) ∧
    (∀ (s : SchedState) (e : PollEvent), s.exit = true → (processEvent s e).1.exit = true) ∧
    (∀ (s : SchedState) (evs : List PollEvent), s.exit = true →
      (runLoop s evs).waits = 0) := by
  refine ⟨fun s => rfl, ?_, ?_⟩
  · intro s e h
    unfold processEvent
    rw [redrawCheck_exit]
    exact handleEvent_exit s e h
  · intro s evs h
    cases evs <;> simp [runLoop, h]

/-- Witness for C3 at concrete states. -/
theorem destroy_is_terminal_witness :
    (handleEvent initState (PollEvent.Main MainEvent.Destroy)).exit = true ∧
    (processEvent ⟨true, true, some ()⟩ PollEvent.Timeout).1.exit = true ∧
    (runLoop ⟨true, false, none⟩ [PollEvent.Wake]).waits = 0 :=
  ⟨destroy_is_terminal.1 initState,
   destroy_is_terminal.2.1 ⟨true, true, some ()⟩ PollEvent.Timeout rfl,
   destroy_is_terminal.2.2 ⟨true, false, none⟩ [PollEvent.Wake] rfl⟩

/-- C4: for every `u32` value, the sender encodes exactly four little-endian
bytes and the receiver decodes them back to the value sent: receiving from
a pipe holding exactly one sent event yields that event's value and empties
the pipe. -/
theorem wire_roundtrip (v : Nat) (h : v < 4294967296) :
    (u32ToLeBytes v).length = 4 ∧
    receiveEvent (send [] v) = Except.ok (v, []) := by
  have hdec : u32FromLeBytes (u32ToLeBytes v) = v := by
    simp only [u32FromLeBytes, u32ToLeBytes]
    omega
  refine ⟨rfl, ?_⟩
  show receiveEvent (u32ToLeBytes v) = Except.ok (v, [])
  unfold receiveEvent
  rw [if_pos (by simp [u32ToLeBytes])]
  have ht : (u32ToLeBytes v).take 4 = u32ToLeBytes v := rfl
  have hd : (u32ToLeBytes v).drop 4 = ([] : List Nat) := rfl
  rw [ht, hd, hdec]

/-- Witness for C4 at both range endpoints, 0 and `u32::MAX`. -/
theorem wire_roundtrip_witness :
    receiveEvent (send [] 0) = Except.ok (0, []) ∧
    receiveEvent (send [] 4294967295) = Except.ok (4294967295, []) :=
  ⟨(wire_roundtrip 0 (by norm_num)).2, (wire_roundtrip 4294967295 (by norm_num)).2⟩

/-- C5: in the running state (`exit = false`), receiving `Main(InitWindow)`
sets `render_state` to present and `redraw_pending` to true, leaving the
other fields unchanged. -/
theorem init_window_transition (s : SchedState) (_h : s.exit = false) :
    handleEvent s (PollEvent.Main MainEvent.InitWindow) =
      { s with render_state := some (), redraw_pending := true } := rfl

/-- Witness for C5 at the initial state. -/
theorem init_window_transition_witness :
    handleEvent initState (PollEvent.Main MainEvent.InitWindow) =
      { initState with render_state := some (), redraw_pending := true } :=
  init_window_transition initState rfl

/-- C6: in the running state, receiving `Timeout` sets `redraw_pending` to
true (and nothing else), and receiving `Wake` changes no component of the
scheduling state before the post-event redraw check. -/
theorem timeout_and_wake_transitions (s : SchedState) (_h : s.exit = false) :
    handleEvent s PollEvent.Timeout = { s with redraw_pending := true } ∧
    handleEvent s PollEvent.Wake = s :=
  ⟨rfl, rfl⟩

/-- Witness for C6 at the initial state. -/
theorem timeout_and_wake_transitions_witness :
    handleEvent initState PollEvent.Timeout = { initState with redraw_pending := true } ∧
    handleEvent initState PollEvent.Wake = initState :=
  timeout_and_wake_transitions initState rfl

/-- C7: any `Main` payload other than `SaveState`, `Resume`, `InitWindow`,
`TerminateWindow`, `WindowResized`, `RedrawNeeded`, `InputAvailable`, or
`Destroy` (i.e. `Pause`, `ConfigChanged`, `LowMemory`, or an unknown future
variant) leaves every component of the scheduling state unchanged before
the post-event redraw check. -/
theorem other_main_payloads_noop (s : SchedState) (m : MainEvent)
    (h1 : m ≠ MainEvent.SaveState) (h2 : m ≠ MainEvent.Resume)
    (h3 : m ≠ MainEvent.InitWindow) (h4 : m ≠ MainEvent.TerminateWindow)
    (h5 : m ≠ MainEvent.WindowResized) (h6 : m ≠ MainEvent.RedrawNeeded)
    (h7 : m ≠ MainEvent.InputAvailable) (h8 : m ≠ MainEvent.Destroy) :
    handleEvent s (PollEvent.Main m) = s := by
  cases m with
  | SaveState => rfl
  | Pause => rfl
  | Resume => rfl
  | InitWindow => exact absurd rfl h3
  | TerminateWindow => exact absurd rfl h4
  | WindowResized => exact absurd rfl h5
  | RedrawNeeded => exact absurd rfl h6
  | InputAvailable => exact absurd rfl h7
  | ConfigChanged => rfl
  | LowMemory => rfl
  | Destroy => exact absurd rfl h8
  | Other t => rfl

/-- Witness for C7 at `Pause` and at an unknown variant. -/
theorem other_main_payloads_noop_witness :
    handleEvent initState (PollEvent.Main MainEvent.Pause) = initState ∧
    handleEvent initState (PollEvent.Main (MainEvent.Other 42)) = initState :=
  ⟨other_main_payloads_noop initState MainEvent.Pause (by decide) (by decide) (by decide)
      (by decide) (by decide) (by decide) (by decide) (by decide),
   other_main_payloads_noop initState (MainEvent.Other 42) (by decide) (by decide) (by decide)
      (by decide) (by decide) (by decide) (by decide) (by decide)⟩

/-- C8: when the ready descriptor holds fewer than 4 bytes the receive is
the fatal `ShortRead` protocol violation (the source's assert), never a
recoverable value; when at least 4 bytes are buffered it consumes exactly
the first 4 and decodes them. -/
theorem short_read_is_fatal :
    (∀ buf : List Nat, buf ≠ [] → buf.length < 4 →
      receiveEvent buf = Except.error ChannelError.ShortRead) ∧
    (∀ buf : List Nat, 4 ≤ buf.length →
      receiveEvent buf = Except.ok (u32FromLeBytes (buf.take 4), buf.drop 4)) := by
  constructor
  · intro buf _ hlen
    unfold receiveEvent
    rw [if_neg (by omega)]
  · intro buf hlen
    unfold receiveEvent
    rw [if_pos hlen]

/-- Witness for C8: a 1-byte ready buffer is fatal; a 5-byte buffer yields
one decoded event and leaves the fifth byte. -/
theorem short_read_is_fatal_witness :
    receiveEvent [7] = Except.error ChannelError.ShortRead ∧
    receiveEvent [1, 2, 3, 4, 5] =
      Except.ok (u32FromLeBytes ([1, 2, 3, 4, 5].take 4), [1, 2, 3, 4, 5].drop 4) :=
  ⟨short_read_is_fatal.1 [7] (by decide) (by decide),
   short_read_is_fatal.2 [1, 2, 3, 4, 5] (by decide)⟩

/-- C9: the initial state has `redraw_pending = true`, `render_state`
absent, and `exit` false; `redraw_pending` stays true through any closure
invocation that leaves `render_state` absent (only a render pass, which
requires a present render state, clears it); and from any pending state the
first event that makes `render_state` present triggers an input drain and a
render pass in that same cycle. -/
theorem initial_pending_renders_on_first_present :
    initState.redraw_pending = true ∧ initState.render_state = none ∧
    initState.exit = false ∧
    (∀ (s : SchedState) (e : PollEvent), s.redraw_pending = true →
      (processEvent s e).1.render_state = none →
      (processEvent s e).1.redraw_pending = true) ∧
    (∀ (s : SchedState) (e : PollEvent), s.redraw_pending = true →
      ((handleEvent s e).render_state).isSome = true →
      (processEvent s e).2 = [LoopAction.drainInputs, LoopAction.render]) := by
  refine ⟨rfl, rfl, rfl, ?_, ?_⟩
  · intro s e h h2
    have hp := handleEvent_pending s e h
    unfold processEvent at *
    rw [redrawCheck_render_state] at h2
    generalize hE : handleEvent s e = t at hp h2
    obtain ⟨ex, rp, rs⟩ := t
    cases rp with
    | false => cases hp
    | true =>
      cases rs with
      | none => rfl
      | some u => cases h2
  · intro s e h h2
    have hp := handleEvent_pending s e h
    unfold processEvent
    rw [redrawCheck_fires (handleEvent s e) hp h2]

/-- Witness for C9: `Wake` from the initial state keeps the pending flag;
`InitWindow` from the initial state renders in the same cycle. -/
theorem initial_pending_witness :
    (processEvent initState PollEvent.Wake).1.redraw_pending = true ∧
    (processEvent initState (PollEvent.Main MainEvent.InitWindow)).2 =
      [LoopAction.drainInputs, LoopAction.render] :=
  ⟨initial_pending_renders_on_first_present.2.2.2.1 initState PollEvent.Wake rfl rfl,
   initial_pending_renders_on_first_present.2.2.2.2 initState
     (PollEvent.Main MainEvent.InitWindow) rfl rfl⟩

/-- C10: when `Main(Destroy)` arrives with a redraw pending and a render
state present, the same closure invocation still runs the redraw check:
`exit` is set by the event match and then one input drain and one render
pass occur, so the loop that processes only this event records one wait,
one drain, and one render before terminating. -/
theorem destroy_renders_in_same_cycle (s : SchedState)
    (h1 : s.redraw_pending = true) (h2 : s.render_state = some ()) :
    processEvent s (PollEvent.Main MainEvent.Destroy) =
      (⟨true, false, some ()⟩, [LoopAction.drainInputs, LoopAction.render]) ∧
    (s.exit = false →
      runLoop s [PollEvent.Main MainEvent.Destroy] =
        { state := ⟨true, false, some ()⟩, waits := 1,
          actions := [LoopAction.drainInputs, LoopAction.render] }) := by
  obtain ⟨ex, rp, rs⟩ := s
  cases h1
  cases h2
  constructor
  · rfl
  · intro hex
    cases hex
    rfl

/-- Witness for C10 at a running state with pending redraw and present
render state. -/
theorem destroy_renders_witness :
    processEvent ⟨false, true, some ()⟩ (PollEvent.Main MainEvent.Destroy) =
      (⟨true, false, some ()⟩, [LoopAction.drainInputs, LoopAction.render]) ∧
    runLoop ⟨false, true, some ()⟩ [PollEvent.Main MainEvent.Destroy] =
      { state := ⟨true, false, some ()⟩, waits := 1,
        actions := [LoopAction.drainInputs, LoopAction.render] } :=
  ⟨(destroy_renders_in_same_cycle ⟨false, true, some ()⟩ rfl rfl).1,
   (destroy_renders_in_same_cycle ⟨false, true, some ()⟩ rfl rfl).2 rfl⟩

end Looper
